import Mathlib

/-!
Shallow embedding of the vehicle-collision-detection repository
(collision_detector.py, vehicle_tracker.py, alert_system.py, config.py),
together with theorems settling the specification claims.

Real-valued float arithmetic of the source is modelled by exact arithmetic:
the risk-scoring pipeline is polymorphic over a linear ordered field so that
it can be instantiated at ℚ (computable, decidable, used by concrete
evaluations) and at ℝ (used by the full pipeline, whose bearing angle is the
transcendental atan2 value).
-/

/-- The severity enumeration of collision_detector.py
(strings 'none' / 'low' / 'medium' / 'high' / 'critical' in the source). -/
inductive Severity where
  | none
  | low
  | medium
  | high
  | critical
deriving DecidableEq, Repr, Fintype

/-- The numeric rank of a severity.  This is exactly the
severity_levels dictionary of alert_system.py line 49
(none 0, low 1, medium 2, high 3, critical 4); it also serves as
the order none < low < medium < high < critical used by the claims. -/
def sevRank : Severity → ℕ
  | Severity.none => 0
  | Severity.low => 1
  | Severity.medium => 2
  | Severity.high => 3
  | Severity.critical => 4

/-- Python's builtin max on two numbers (value-equal to Mathlib's max on a
linear order; written with an explicit decidable test so that it reduces in
the kernel at ℚ). -/
def pymax {α : Type} [LE α] [DecidableRel ((· ≤ ·) : α → α → Prop)] (a b : α) : α :=
  if a ≤ b then b else a

/-- Python's builtin min on two numbers (value-equal to Mathlib's min). -/
def pymin {α : Type} [LE α] [DecidableRel ((· ≤ ·) : α → α → Prop)] (a b : α) : α :=
  if a ≤ b then a else b

section Config

variable {α : Type} [LinearOrderedField α]

/-- config.py line 37: CRITICAL_DISTANCE = 5.0 (meters). -/
def CRITICAL_DISTANCE : α := 5
/-- config.py line 38: HIGH_DISTANCE = 10.0. -/
def HIGH_DISTANCE : α := 10
/-- config.py line 39: MEDIUM_DISTANCE = 20.0. -/
def MEDIUM_DISTANCE : α := 20
/-- config.py line 40: LOW_DISTANCE = 30.0. -/
def LOW_DISTANCE : α := 30
/-- config.py line 43: CRITICAL_SPEED = 20.0 (pixels/frame). -/
def CRITICAL_SPEED : α := 20
/-- config.py line 44: HIGH_SPEED = 15.0. -/
def HIGH_SPEED : α := 15
/-- config.py line 45: MEDIUM_SPEED = 10.0. -/
def MEDIUM_SPEED : α := 10
/-- config.py line 46: LOW_SPEED = 5.0. -/
def LOW_SPEED : α := 5
/-- config.py line 50: CRITICAL_ANGLE = 15.0 (degrees from center). -/
def CRITICAL_ANGLE : α := 15
/-- config.py line 51: HIGH_ANGLE = 30.0. -/
def HIGH_ANGLE : α := 30
/-- config.py line 52: MEDIUM_ANGLE = 45.0. -/
def MEDIUM_ANGLE : α := 45
/-- config.py line 53: LOW_ANGLE = 60.0. -/
def LOW_ANGLE : α := 60
/-- config.py line 57: SPEED_THRESHOLD = 5.0. -/
def SPEED_THRESHOLD : α := 5
/-- config.py line 62: FOCAL_LENGTH = 700 (pixels). -/
def FOCAL_LENGTH : α := 700
/-- config.py line 63: REAL_VEHICLE_WIDTH = 1.8 (meters), exactly 9/5. -/
def REAL_VEHICLE_WIDTH : α := 9 / 5
/-- config.py line 64: PIXELS_PER_METER = 50. -/
def PIXELS_PER_METER : α := 50

end Config

section Scores

variable {α : Type} [LinearOrderedField α] [DecidableRel ((· ≤ ·) : α → α → Prop)]

/-- collision_detector.py lines 144-153: the distance risk score
(closer = higher risk), with linear decay below the lowest tier. -/
def distScore (distance : α) : α :=
  if distance ≤ CRITICAL_DISTANCE then 1
  else if distance ≤ HIGH_DISTANCE then 4 / 5
  else if distance ≤ MEDIUM_DISTANCE then 3 / 5
  else if distance ≤ LOW_DISTANCE then 2 / 5
  else pymax 0 (1 - (distance - LOW_DISTANCE) / 50)

/-- collision_detector.py lines 156-165: the speed risk score
(faster = higher risk). -/
def speedScore (actual_speed : α) : α :=
  if CRITICAL_SPEED ≤ actual_speed then 1
  else if HIGH_SPEED ≤ actual_speed then 4 / 5
  else if MEDIUM_SPEED ≤ actual_speed then 3 / 5
  else if LOW_SPEED ≤ actual_speed then 2 / 5
  else actual_speed / LOW_SPEED * (2 / 5)

/-- collision_detector.py lines 168-177: the angle risk score
(directly ahead = higher risk). -/
def angleScore (angle_from_center : α) : α :=
  if angle_from_center ≤ CRITICAL_ANGLE then 1
  else if angle_from_center ≤ HIGH_ANGLE then 4 / 5
  else if angle_from_center ≤ MEDIUM_ANGLE then 3 / 5
  else if angle_from_center ≤ LOW_ANGLE then 2 / 5
  else pymax 0 (1 - (angle_from_center - LOW_ANGLE) / 60)

/-- collision_detector.py line 181: the weighted combined risk score
(distance 40 percent, speed 35 percent, angle 25 percent). -/
def combinedScore (distance actual_speed angle_from_center : α) : α :=
  distScore distance * (2 / 5) + speedScore actual_speed * (7 / 20) +
    angleScore angle_from_center * (1 / 4)

/-- The shape of the first-match-wins if/elif/else chain of
collision_detector.py lines 184-216: four tier tests, three combined-score
fallback tests, defaulting to no collision. -/
def tierSelect (t1 t2 t3 t4 f7 f5 f3 : Prop) [Decidable t1] [Decidable t2]
    [Decidable t3] [Decidable t4] [Decidable f7] [Decidable f5]
    [Decidable f3] : Bool × Severity :=
  if t1 then (true, Severity.critical)
  else if t2 then (true, Severity.high)
  else if t3 then (true, Severity.medium)
  else if t4 then (true, Severity.low)
  else if f7 then (true, Severity.high)
  else if f5 then (true, Severity.medium)
  else if f3 then (true, Severity.low)
  else (false, Severity.none)

/-- collision_detector.py lines 184-216: the first-match-wins severity
cascade (four threshold tiers, then the combined-score fallback), before
the escalation overrides.  Returns (is_collision, severity). -/
def baseSeverity (distance actual_speed angle_from_center : α) : Bool × Severity :=
  tierSelect
    (distance ≤ CRITICAL_DISTANCE ∧ LOW_SPEED ≤ actual_speed ∧
      angle_from_center ≤ CRITICAL_ANGLE)
    (distance ≤ HIGH_DISTANCE ∧ MEDIUM_SPEED ≤ actual_speed ∧
      angle_from_center ≤ HIGH_ANGLE)
    (distance ≤ MEDIUM_DISTANCE ∧ LOW_SPEED ≤ actual_speed ∧
      angle_from_center ≤ MEDIUM_ANGLE)
    (distance ≤ LOW_DISTANCE ∧ LOW_SPEED ≤ actual_speed ∧
      angle_from_center ≤ LOW_ANGLE)
    ((7 : α) / 10 ≤ combinedScore distance actual_speed angle_from_center)
    ((1 : α) / 2 ≤ combinedScore distance actual_speed angle_from_center)
    ((3 : α) / 10 ≤ combinedScore distance actual_speed angle_from_center)

/-- collision_detector.py lines 221-224: the inner severity remapping of the
very-close-vehicle override (none/low become high, medium/high become
critical, critical stays critical). -/
def closeOverrideSev (s : Severity) : Severity :=
  if s = Severity.none ∨ s = Severity.low then Severity.high
  else if s ≠ Severity.critical then Severity.critical
  else s

/-- collision_detector.py lines 229-230: the inner severity remapping of the
very-high-speed override (everything becomes critical). -/
def fastOverrideSev (s : Severity) : Severity :=
  if s ≠ Severity.critical then Severity.critical else s

/-- collision_detector.py lines 218-231: the two severity-escalation
overrides, applied to an (is_collision, severity) pair: if
distance ≤ CRITICAL_DISTANCE/2 the collision flag is forced and the severity
escalated by closeOverrideSev; if speed ≥ CRITICAL_SPEED with distance ≤
HIGH_DISTANCE and angle ≤ HIGH_ANGLE, the flag is forced and the severity
escalated by fastOverrideSev. -/
def applyOverrides (distance actual_speed angle_from_center : α)
    (r : Bool × Severity) : Bool × Severity :=
  let r1 := if distance ≤ CRITICAL_DISTANCE / 2 then (true, closeOverrideSev r.2) else r
  if CRITICAL_SPEED ≤ actual_speed ∧ distance ≤ HIGH_DISTANCE ∧
      angle_from_center ≤ HIGH_ANGLE then (true, fastOverrideSev r1.2)
  else r1

/-- collision_detector.py lines 142-231: the full severity decision of
predict_collision as a function of the derived quantities distance,
actual_speed (max of tracked mean speed and velocity magnitude) and
angle_from_center. -/
def severityOf (distance actual_speed angle_from_center : α) : Bool × Severity :=
  applyOverrides distance actual_speed angle_from_center
    (baseSeverity distance actual_speed angle_from_center)

end Scores

section Distance

variable {α : Type} [LinearOrderedField α] [DecidableRel ((· ≤ ·) : α → α → Prop)]
variable [DecidableRel ((· < ·) : α → α → Prop)]

/-- collision_detector.py lines 18-47: estimated distance in meters from a
bounding box (x, y, w, h).  Uses the bbox height; the view argument is
accepted and ignored, as in the source. -/
def calculate_distance (bbox : α × α × α × α) (view : String) : α :=
  let pixel_height := bbox.2.2.2
  if 0 < pixel_height then
    let distance_pixels := (REAL_VEHICLE_WIDTH * FOCAL_LENGTH) / pixel_height
    let distance_meters := distance_pixels / PIXELS_PER_METER
    pymax 1 (pymin distance_meters 200)
  else 100

/-- Modelled from the spec: clamp(x, lo, hi). -/
def clampSpec (x lo hi : α) : α := max lo (min x hi)

/-- Modelled from the spec: the distance formula
clamp((realWidth * focalLength) / bboxHeight / pixelsPerMeter, 1.0, 200.0),
with the fixed 100 m default for non-positive bbox height. -/
def distanceSpec (bbox : α × α × α × α) : α :=
  if 0 < bbox.2.2.2 then
    clampSpec ((REAL_VEHICLE_WIDTH * FOCAL_LENGTH) / bbox.2.2.2 / PIXELS_PER_METER) 1 200
  else 100

end Distance

/-- The upper-cased severity label used in alert messages
(severity.upper() in alert_system.py line 85). -/
def sevUpper : Severity → String
  | Severity.none => "NONE"
  | Severity.low => "LOW"
  | Severity.medium => "MEDIUM"
  | Severity.high => "HIGH"
  | Severity.critical => "CRITICAL"

/-- One vehicle-info record as consumed by alert_system.py check_alerts.
In the source this is a dictionary produced by analyze_vehicle; the .get
defaults of the source never fire on records coming from analyze_vehicle,
so the fields are plain here.  time_to_collision none stands for the
float('inf') of the source. -/
structure AlertVehicle where
  collision_detected : Bool
  severity : Severity
  view : String
  distance : ℚ
  speed : ℚ
  angle : ℚ
  time_to_collision : Option ℚ
  vid : ℕ

/-- alert_system.py lines 61-82: the factor strings explaining which of
distance, speed and angle triggered the alert.  Numeric formatting
(Python's :.1f) is abstracted to toString; the degree sign is written
"deg". -/
def alertFactors (v : AlertVehicle) : List String :=
  (if v.distance ≤ CRITICAL_DISTANCE then
      ["CLOSE (Dist: " ++ toString v.distance ++ "m)"]
    else if v.distance ≤ HIGH_DISTANCE then
      ["Near (Dist: " ++ toString v.distance ++ "m)"]
    else []) ++
  (if CRITICAL_SPEED ≤ v.speed then
      ["FAST (Speed: " ++ toString v.speed ++ "px/s)"]
    else if HIGH_SPEED ≤ v.speed then
      ["Fast (Speed: " ++ toString v.speed ++ "px/s)"]
    else []) ++
  (let afc0 := if v.view = "front" ∨ v.view = "back" then |v.angle - 0| else |v.angle - 90|
   let afc := if 180 < afc0 then 360 - afc0 else afc0
   if afc ≤ CRITICAL_ANGLE then
     ["DIRECT PATH (Angle: " ++ toString v.angle ++ " deg)"]
   else if afc ≤ HIGH_ANGLE then
     ["On Path (Angle: " ++ toString v.angle ++ " deg)"]
   else [])

/-- alert_system.py lines 82-87: the per-vehicle alert message, with the
optional finite-TTC suffix. -/
def alertMessage (v : AlertVehicle) : String :=
  let factors := alertFactors v
  let factors_str :=
    if factors = [] then "Risk detected" else String.intercalate " | " factors
  let head := "Vehicle ID:" ++ toString v.vid ++ " [" ++ sevUpper v.severity ++
    "] - " ++ factors_str
  match v.time_to_collision with
  | some t => head ++ " | TTC: " ++ toString t ++ "s"
  | Option.none => head

/-- One iteration of the check_alerts loop of alert_system.py lines 43-89:
a flagged vehicle sets the alert, raises the running maximum severity when
its own severity ranks strictly higher, and appends its message. -/
def checkAlertsStep (acc : Bool × Severity × List String) (v : AlertVehicle) :
    Bool × Severity × List String :=
  if v.collision_detected then
    (true,
     (if sevRank acc.2.1 < sevRank v.severity then v.severity else acc.2.1),
     acc.2.2 ++ [alertMessage v])
  else acc

/-- alert_system.py lines 29-94: check_alerts, returning
(should_alert, max_severity, alert_messages). -/
def check_alerts (vehicles : List AlertVehicle) : Bool × Severity × List String :=
  vehicles.foldl checkAlertsStep (false, Severity.none, [])

/-- Modelled from the spec: the maximum of two severities under the order
none < low < medium < high < critical. -/
def sevMax (x y : Severity) : Severity :=
  if sevRank x < sevRank y then y else x

/-- Python's math.atan2(y, x) in radians: arctan(y/x) corrected by quadrant,
with the conventional values on the axes (atan2(0, 0) = 0). -/
noncomputable def atan2 (y x : ℝ) : ℝ :=
  if 0 < x then Real.arctan (y / x)
  else if x < 0 ∧ 0 ≤ y then Real.arctan (y / x) + Real.pi
  else if x < 0 ∧ y < 0 then Real.arctan (y / x) - Real.pi
  else if x = 0 ∧ 0 < y then Real.pi / 2
  else if x = 0 ∧ y < 0 then -(Real.pi / 2)
  else 0

/-- Python's float modulo x % m (for positive m): x - m * floor(x / m). -/
noncomputable def fmodReal (x m : ℝ) : ℝ := x - m * (⌊x / m⌋ : ℝ)

/-- collision_detector.py lines 60-74: the bearing of the bbox center
relative to the frame center (fw/2, fh/2), in degrees, normalized from
atan2's (-180, 180] range to [0, 360) by adding 360 to negative values. -/
noncomputable def rawBearingDeg (fw fh : ℚ) (bbox : ℚ × ℚ × ℚ × ℚ) : ℝ :=
  let cx : ℝ := (bbox.1 : ℝ) + (bbox.2.2.1 : ℝ) / 2
  let cy : ℝ := (bbox.2.1 : ℝ) + (bbox.2.2.2 : ℝ) / 2
  let dx := cx - (fw : ℝ) / 2
  let dy := cy - (fh : ℝ) / 2
  let angle_deg := atan2 dy dx * (180 / Real.pi)
  if angle_deg < 0 then angle_deg + 360 else angle_deg

/-- collision_detector.py lines 49-90: calculate_angle.  The normalized raw
bearing is remapped per view: front unchanged, back +180, left +90,
right -90 (mod 360); the if/elif chain has no else branch, so any other
view tag falls through with the angle unchanged. -/
noncomputable def calculate_angle (fw fh : ℚ) (bbox : ℚ × ℚ × ℚ × ℚ)
    (view : String) : ℝ :=
  let angle_deg := rawBearingDeg fw fh bbox
  if view = "front" then angle_deg
  else if view = "back" then fmodReal (angle_deg + 180) 360
  else if view = "left" then fmodReal (angle_deg + 90) 360
  else if view = "right" then fmodReal (angle_deg - 90) 360
  else angle_deg

/-- The tracked-vehicle fields consumed by predict_collision: position,
velocity and mean speed from the tracker, plus the derived distance and
angle. -/
structure VehicleInfo where
  position : ℝ × ℝ
  velocity : ℝ × ℝ
  speed : ℝ
  distance : ℝ
  angle : ℝ

/-- collision_detector.py lines 92-232: predict_collision.  Returns
(is_collision, time_to_collision, severity); Option none stands for the
float('inf') time-to-collision of the source. -/
noncomputable def predict_collision (frame_center : ℝ × ℝ) (vi : VehicleInfo)
    (view : String) : Bool × Option ℝ × Severity :=
  let vx := vi.velocity.1
  let vy := vi.velocity.2
  let speed_magnitude := Real.sqrt (vx ^ 2 + vy ^ 2)
  let actual_speed := pymax vi.speed speed_magnitude
  let afc0 := if view = "front" ∨ view = "back" then |vi.angle - 0| else |vi.angle - 90|
  let angle_from_center := if 180 < afc0 then 360 - afc0 else afc0
  let dx := vi.position.1 - frame_center.1
  let dy := vi.position.2 - frame_center.2
  let velocity_towards_center := vx * dx + vy * dy < 0
  let time_to_collision : Option ℝ :=
    if SPEED_THRESHOLD < actual_speed ∧ velocity_towards_center then
      let speed_ms := actual_speed * (1 / 10)
      if 0 < speed_ms then some (vi.distance / speed_ms) else Option.none
    else Option.none
  let r := severityOf vi.distance actual_speed angle_from_center
  (r.1, time_to_collision, r.2)

/-- The tracker-provided part of a vehicle record (vehicle_tracker.py
get_tracked_vehicles): position, velocity, mean speed, id. -/
structure TrackerVehicleInfo where
  position : ℝ × ℝ
  velocity : ℝ × ℝ
  speed : ℝ
  tid : ℕ

/-- The dictionary returned by analyze_vehicle. -/
structure AnalyzedVehicle where
  position : ℝ × ℝ
  velocity : ℝ × ℝ
  speed : ℝ
  distance : ℝ
  angle : ℝ
  tid : ℕ
  collision_detected : Bool
  time_to_collision : Option ℝ
  severity : Severity

/-- collision_detector.py lines 234-264: analyze_vehicle composes
calculate_distance, calculate_angle and predict_collision for a frame of
width fw and height fh (frame center (fw/2, fh/2)). -/
noncomputable def analyze_vehicle (fw fh : ℚ) (bbox : ℚ × ℚ × ℚ × ℚ)
    (ti : TrackerVehicleInfo) (view : String) : AnalyzedVehicle :=
  let distance : ℝ := calculate_distance (α := ℝ)
    ((bbox.1 : ℝ), (bbox.2.1 : ℝ), (bbox.2.2.1 : ℝ), (bbox.2.2.2 : ℝ)) view
  let angle := calculate_angle fw fh bbox view
  let vi : VehicleInfo := ⟨ti.position, ti.velocity, ti.speed, distance, angle⟩
  let r := predict_collision ((fw : ℝ) / 2, (fh : ℝ) / 2) vi view
  ⟨ti.position, ti.velocity, ti.speed, distance, angle, ti.tid, r.1, r.2.1, r.2.2⟩

/-- A bounding box (x, y, w, h) in pixels. -/
abbrev BBox : Type := ℚ × ℚ × ℚ × ℚ

/-- vehicle_tracker.py lines 29-32: the constant-velocity state transition
matrix F over state (x, y, vx, vy). -/
def kalmanF : Matrix (Fin 4) (Fin 4) ℚ :=
  !![1, 0, 1, 0; 0, 1, 0, 1; 0, 0, 1, 0; 0, 0, 0, 1]

/-- vehicle_tracker.py lines 34-35: the position-only measurement matrix H. -/
def kalmanH : Matrix (Fin 2) (Fin 4) ℚ := !![1, 0, 0, 0; 0, 1, 0, 0]

/-- vehicle_tracker.py lines 38-39: measurement noise R = 5 I. -/
def kalmanR : Matrix (Fin 2) (Fin 2) ℚ := !![5, 0; 0, 5]

/-- vehicle_tracker.py lines 40-43: process noise Q = 0.03 I, exactly 3/100. -/
def kalmanQ : Matrix (Fin 4) (Fin 4) ℚ := (3 / 100 : ℚ) • 1

/-- A Kalman filter's mutable state: the estimate x and its covariance P
(F, H, Q, R are the fixed matrices above, shared by every filter). -/
structure KF where
  x : Fin 4 → ℚ
  P : Matrix (Fin 4) (Fin 4) ℚ

/-- filterpy's predict step with B = 0: x becomes F x and
P becomes F P Ft + Q. -/
def kfPredict (kf : KF) : KF :=
  ⟨kalmanF.mulVec kf.x, kalmanF * kf.P * kalmanF.transpose + kalmanQ⟩

/-- The explicit inverse of a 2 x 2 rational matrix (adjugate over
determinant; a singular S would raise in the source and is never reached). -/
def inv2 (m : Matrix (Fin 2) (Fin 2) ℚ) : Matrix (Fin 2) (Fin 2) ℚ :=
  (1 / (m 0 0 * m 1 1 - m 0 1 * m 1 0)) • !![m 1 1, -(m 0 1); -(m 1 0), m 0 0]

/-- filterpy's update step with measurement z: residual y = z - H x, gain
K = P Ht (H P Ht + R)^-1, new state x + K y, and the Joseph-form
covariance (I - K H) P (I - K H)t + K R Kt. -/
def kfUpdate (kf : KF) (z : Fin 2 → ℚ) : KF :=
  let y := z - kalmanH.mulVec kf.x
  let S := kalmanH * kf.P * kalmanH.transpose + kalmanR
  let K := kf.P * kalmanH.transpose * inv2 S
  let x1 := kf.x + K.mulVec y
  let IKH := (1 : Matrix (Fin 4) (Fin 4) ℚ) - K * kalmanH
  ⟨x1, IKH * kf.P * IKH.transpose + K * kalmanR * K.transpose⟩

/-- The per-id state of one tracked vehicle.  The source keeps parallel
dictionaries (trackers, disappeared, speeds, positions_history, timestamps,
bboxes) that are created, updated and deleted together and always share
their key set and insertion order, so they are bundled into one record
here.  Speeds are real numbers (the source stores sqrt displacements over
elapsed time). -/
structure Track where
  kf : KF
  disappeared : ℕ
  speeds : List ℝ
  positions : List (ℚ × ℚ)
  timestamps : List ℚ
  bbox : BBox

/-- The VehicleTracker state: the id counter, the insertion-ordered
id-to-track map (a Python dict preserves insertion order), and the
max_disappeared bound (default 30). -/
structure TrackerState where
  next_id : ℕ
  tracks : List (ℕ × Track)
  max_disappeared : ℕ

/-- vehicle_tracker.py lines 14-22: a fresh tracker. -/
def initTracker (max_disappeared : ℕ) : TrackerState := ⟨0, [], max_disappeared⟩

/-- The center of a bounding box: (x + w/2, y + h/2). -/
def detCenter (d : BBox) : ℚ × ℚ := (d.1 + d.2.2.1 / 2, d.2.1 + d.2.2.2 / 2)

/-- The position part of a filter state. -/
def kfCenter (kf : KF) : ℚ × ℚ := (kf.x 0, kf.x 1)

/-- The squared Euclidean distance.  The source takes np.sqrt of this;
since the square root is strictly monotone on nonnegatives, the greedy
minimum selection and the 100 px gate (squared: 10000) are unchanged when
costs are kept squared, which keeps them rational. -/
def sqDist (p q : ℚ × ℚ) : ℚ := (p.1 - q.1) ^ 2 + (p.2 - q.2) ^ 2

/-- vehicle_tracker.py lines 91-108: _create_tracker.  A new id is drawn
from next_id (which then increments), the filter starts at the detection
center with zero velocity and P = 1000 I, and the histories hold a single
sample (speed 0.0). -/
def createTracker (st : TrackerState) (detection : BBox) (t : ℚ) : TrackerState :=
  let c := detCenter detection
  let kf : KF := ⟨![c.1, c.2, 0, 0], (1000 : ℚ) • 1⟩
  let track : Track := ⟨kf, 0, [(0 : ℝ)], [c], [t], detection⟩
  { st with
      next_id := st.next_id + 1
      tracks := st.tracks ++ [(st.next_id, track)] }

/-- One cost-matrix pass over the trackers: each filter is predicted, then
its new center is measured against the detection center
(vehicle_tracker.py lines 162-167). -/
def predictAll (tracks : List (ℕ × Track)) : List (ℕ × Track) :=
  tracks.map fun p => (p.1, { p.2 with kf := kfPredict p.2.kf })

def costRow (c : ℚ × ℚ) (tracks : List (ℕ × Track)) : List ℚ :=
  tracks.map fun p => sqDist c (kfCenter p.2.kf)

/-- vehicle_tracker.py lines 155-168: the cost matrix.  Note the source
calls kf.predict() inside the per-detection loop, so every tracker is
predicted once per detection row and later rows measure against
further-advanced centers; the returned state carries the mutated filters. -/
def buildCostMatrix (st : TrackerState) (dets : List BBox) :
    TrackerState × List (List ℚ) :=
  let r := dets.foldl
    (fun acc det =>
      let tracks1 := predictAll acc.1
      (tracks1, acc.2 ++ [costRow (detCenter det) tracks1]))
    (st.tracks, ([] : List (List ℚ)))
  ({ st with tracks := r.1 }, r.2)

/-- cost_matrix[det_idx][trk_idx]; indices used by the greedy loop are
always in range in the source. -/
def costAt (cm : List (List ℚ)) (i j : ℕ) : ℚ := (cm.getD i []).getD j 0

/-- The inner scan of vehicle_tracker.py lines 184-189 over one detection
row: keep the strictly smallest entry, first-found winning ties. -/
def scanRow (cm : List (List ℚ)) (i : ℕ) :
    List ℕ → Option (ℚ × ℕ × ℕ) → Option (ℚ × ℕ × ℕ)
  | [], best => best
  | j :: rest, best =>
    let c := costAt cm i j
    let best1 := match best with
      | Option.none => some (c, i, j)
      | some (bc, bi, bj) => if c < bc then some (c, i, j) else some (bc, bi, bj)
    scanRow cm i rest best1

/-- The full minimum scan of vehicle_tracker.py lines 180-189 (detections
outer, trackers inner). -/
def findMin (cm : List (List ℚ)) :
    List ℕ → List ℕ → Option (ℚ × ℕ × ℕ) → Option (ℚ × ℕ × ℕ)
  | [], _, best => best
  | i :: rest, ut, best => findMin cm rest ut (scanRow cm i ut best)

/-- vehicle_tracker.py lines 179-196: the greedy while-loop.  Each accepted
match (cost strictly below the gate, 100 px, squared here to 10000) removes
its detection and tracker from consideration; the loop ends when no
candidate remains below the gate.  Fuel bounds the iterations: each
acceptance removes one unmatched detection, so the initial detection count
suffices. -/
def greedyLoop (cm : List (List ℚ)) :
    ℕ → List ℕ → List ℕ → List (ℕ × ℕ) → List (ℕ × ℕ) × List ℕ × List ℕ
  | 0, ud, ut, acc => (acc, ud, ut)
  | fuel + 1, ud, ut, acc =>
    match findMin cm ud ut Option.none with
    | some (c, i, j) =>
      if c < 10000 then
        greedyLoop cm fuel (ud.erase i) (ut.erase j) (acc ++ [(i, j)])
      else (acc, ud, ut)
    | Option.none => (acc, ud, ut)

/-- The association result (matched, unmatched_dets, unmatched_trks). -/
structure AssocResult where
  matched : List (ℕ × ℕ)
  unmatched_dets : List ℕ
  unmatched_trks : List ℕ

/-- vehicle_tracker.py lines 170-198: greedy matching over a cost matrix,
guarded on the matrix being non-empty in both dimensions. -/
def associateMatch (cm : List (List ℚ)) (ndets ntrks : ℕ) : AssocResult :=
  let ud := List.range ndets
  let ut := List.range ntrks
  if cm ≠ [] ∧ cm.headD [] ≠ [] then
    let r := greedyLoop cm ndets ud ut []
    ⟨r.1, r.2.1, r.2.2⟩
  else ⟨[], ud, ut⟩

/-- vehicle_tracker.py lines 110-148: _update_tracker's effect on one
track: predict then correct the filter with the observed center, append an
instantaneous speed sample (displacement over elapsed time, skipped when
elapsed time is not positive; ring capacity 10), append the center and
timestamp (ring capacity 30), reset the disappearance counter, store the
bbox. -/
noncomputable def updateTrackerTrack (track : Track) (detection : BBox) (t : ℚ) : Track :=
  let c := detCenter detection
  let kf1 := kfUpdate (kfPredict track.kf) ![c.1, c.2]
  let speeds1 :=
    match track.positions.getLast?, track.timestamps.getLast? with
    | some p, some pt =>
      let dt := t - pt
      if 0 < dt then
        let s := track.speeds ++ [Real.sqrt ((sqDist c p : ℚ) : ℝ) / ((dt : ℚ) : ℝ)]
        if 10 < s.length then s.tail else s
      else track.speeds
    | _, _ => track.speeds
  let positions1 := track.positions ++ [c]
  let timestamps1 := track.timestamps ++ [t]
  if 30 < positions1.length then
    ⟨kf1, 0, speeds1, positions1.tail, timestamps1.tail, detection⟩
  else
    ⟨kf1, 0, speeds1, positions1, timestamps1, detection⟩

/-- vehicle_tracker.py lines 110-113: _update_tracker resolves its tracker
by positional index into the current key list; an out-of-range index would
raise (never reached for matched indices). -/
noncomputable def updateTrackerAt (tracks : List (ℕ × Track)) (trk_idx : ℕ) (detection : BBox)
    (t : ℚ) : Option (List (ℕ × Track)) :=
  match tracks.get? trk_idx with
  | Option.none => Option.none
  | some (tid, track) => some (tracks.set trk_idx (tid, updateTrackerTrack track detection t))

/-- vehicle_tracker.py lines 85-89: one iteration of the unmatched-tracker
loop.  The tracker is resolved by positional index into the CURRENT key
list (which shrinks when an earlier iteration evicted a tracker, shifting
later indices); an out-of-range index raises IndexError, modelled as none.
The resolved id's counter increments and the id is evicted once the counter
exceeds max_disappeared. -/
def ageTrackerAt (maxd : ℕ) (tracks : List (ℕ × Track)) (trk_idx : ℕ) :
    Option (List (ℕ × Track)) :=
  match tracks.get? trk_idx with
  | Option.none => Option.none
  | some (tid, track) =>
    let d := track.disappeared + 1
    if maxd < d then some (tracks.filter fun p => p.1 ≠ tid)
    else some (tracks.map fun p =>
      if p.1 = tid then (tid, { track with disappeared := d }) else p)

/-- vehicle_tracker.py lines 58-63: the empty-detections tick ages every
track by one and evicts those whose counter exceeds max_disappeared (the
source iterates over a copy of the key list, so eviction is safe here). -/
def ageAll (maxd : ℕ) (tracks : List (ℕ × Track)) : List (ℕ × Track) :=
  tracks.filterMap fun p =>
    let d := p.2.disappeared + 1
    if maxd < d then Option.none else some (p.1, { p.2 with disappeared := d })

/-- vehicle_tracker.py lines 47-89: update.  Empty detections only age;
an empty tracker set spawns a track per detection; otherwise the cost
matrix is built (mutating the filters), the greedy association runs,
matched tracks are corrected, unmatched detections spawn tracks, and
unmatched trackers age with possible eviction.  none models an IndexError
escaping update (reachable in the unmatched-tracker loop after a mid-loop
eviction).  The frame_center argument is accepted and unused, as in the
source. -/
noncomputable def update (st : TrackerState) (detections : List BBox) (frame_center : ℚ × ℚ)
    (t : ℚ) : Option TrackerState :=
  if detections.isEmpty then
    some { st with tracks := ageAll st.max_disappeared st.tracks }
  else if st.tracks.isEmpty then
    some (detections.foldl (fun s det => createTracker s det t) st)
  else
    let bc := buildCostMatrix st detections
    let assoc := associateMatch bc.2 detections.length st.tracks.length
    (assoc.matched.foldlM
        (fun trs m => updateTrackerAt trs m.2 (detections.getD m.1 (0, 0, 0, 0)) t)
        bc.1.tracks).bind fun tracks2 =>
      let st3 := assoc.unmatched_dets.foldl
        (fun s i => createTracker s (detections.getD i (0, 0, 0, 0)) t)
        { bc.1 with tracks := tracks2 }
      (assoc.unmatched_trks.foldlM (ageTrackerAt st.max_disappeared) st3.tracks).bind
        fun tracks4 => some { st3 with tracks := tracks4 }

/-- The ids of the currently live tracks, in insertion order. -/
def liveIds (st : TrackerState) : List ℕ := st.tracks.map Prod.fst

/-- The disappearance counter of a live id (none when not live). -/
def getCounter (st : TrackerState) (tid : ℕ) : Option ℕ :=
  (st.tracks.find? fun p => p.1 = tid).map fun p => p.2.disappeared

/-- The tracker invariant: live ids are pairwise distinct and all below the
id counter. -/
def trackerWF (st : TrackerState) : Prop :=
  (liveIds st).Nodup ∧ ∀ tid ∈ liveIds st, tid < st.next_id

/-- A sequence of update calls, each (detections, frame_center, time);
stops at the first crash. -/
noncomputable def runUpdates (st : TrackerState) (steps : List (List BBox × (ℚ × ℚ) × ℚ)) :
    Option TrackerState :=
  steps.foldlM (fun s stp => update s stp.1 stp.2.1 stp.2.2) st

/-- A literal track for concrete evaluations: filter state
(cx, cy, vx, vy) with P = 1000 I, a given disappearance counter and
single-sample histories. -/
def demoTrack (cx cy vx vy : ℚ) (dis : ℕ) : Track :=
  ⟨⟨![cx, cy, vx, vy], (1000 : ℚ) • 1⟩, dis, [(0 : ℝ)], [(cx, cy)], [0],
    (cx - 5, cy - 5, 10, 10)⟩

def c5state : TrackerState :=
  ⟨2, [(0, demoTrack 0 0 0 0 30), (1, demoTrack 300 0 0 0 0)], 30⟩

def c4state : TrackerState := ⟨1, [(0, demoTrack 0 0 10 0 0)], 30⟩

def c6state : TrackerState := ⟨1, [(0, demoTrack 10 0 0 0 0)], 30⟩

theorem pymax_eq_max {α : Type} [LinearOrder α]
    [DecidableRel ((· ≤ ·) : α → α → Prop)] (a b : α) : pymax a b = max a b := by
  rw [pymax, max_def]
  split_ifs <;> rfl

theorem pymin_eq_min {α : Type} [LinearOrder α]
    [DecidableRel ((· ≤ ·) : α → α → Prop)] (a b : α) : pymin a b = min a b := by
  rw [pymin, min_def]
  split_ifs <;> rfl

section OverrideLemmas

variable {α : Type} [LinearOrderedField α] [DecidableRel ((· ≤ ·) : α → α → Prop)]

theorem closeOverrideSev_rank_mono :
    ∀ s t, sevRank s ≤ sevRank t →
      sevRank (closeOverrideSev s) ≤ sevRank (closeOverrideSev t) := by decide

theorem le_closeOverrideSev_rank : ∀ s, sevRank s ≤ sevRank (closeOverrideSev s) := by decide

theorem fastOverrideSev_rank : ∀ s, sevRank (fastOverrideSev s) = 4 := by decide

theorem sevRank_le_four : ∀ s, sevRank s ≤ 4 := by decide

/-- Re-applying the override block of collision_detector.py lines 218-231 to
its own output: the collision flag is unchanged, and the severity is
unchanged except in one case, where the first application turned a none/low
severity into high via the very-close-distance override and the second
application escalates that high to critical. -/
theorem applyOverrides_twice (d s a : α) (r : Bool × Severity) :
    (applyOverrides d s a (applyOverrides d s a r)).1 = (applyOverrides d s a r).1 ∧
    ((applyOverrides d s a (applyOverrides d s a r)).2 = (applyOverrides d s a r).2 ∨
      ((applyOverrides d s a r).2 = Severity.high ∧
       (applyOverrides d s a (applyOverrides d s a r)).2 = Severity.critical ∧
       d ≤ CRITICAL_DISTANCE / 2 ∧
       (r.2 = Severity.none ∨ r.2 = Severity.low))) := by
  rcases r with ⟨b, sev⟩
  by_cases h1 : d ≤ CRITICAL_DISTANCE / 2 <;>
    by_cases h2 : CRITICAL_SPEED ≤ s ∧ d ≤ HIGH_DISTANCE ∧ a ≤ HIGH_ANGLE <;>
      cases sev <;>
        simp [applyOverrides, h1, h2, closeOverrideSev, fastOverrideSev]

end OverrideLemmas

/-- C2, counterexample: at the reachable derived input distance 1, speed 0,
angle-from-center 180 (the spec example bbox on its first tick), one
application of the override block yields severity high, but a second
application escalates it to critical, so the override block is not
idempotent on predict_collision's result. -/
theorem C2_cex_overrides_not_idempotent :
    severityOf (1 : ℚ) 0 180 = (true, Severity.high) ∧
    applyOverrides (1 : ℚ) 0 180 (severityOf (1 : ℚ) 0 180) = (true, Severity.critical) := by
  constructor <;> with_unfolding_all decide

/-- C2, amended: re-applying the two severity-escalation overrides to
predict_collision's result never changes the collision flag, and changes
the severity only when the distance override had raised a none/low base
severity to high, in which case the second application escalates it to
critical. -/
theorem C2_overrides_almost_idempotent {α : Type} [LinearOrderedField α]
    [DecidableRel ((· ≤ ·) : α → α → Prop)] (d s a : α) :
    (applyOverrides d s a (severityOf d s a)).1 = (severityOf d s a).1 ∧
    ((applyOverrides d s a (severityOf d s a)).2 = (severityOf d s a).2 ∨
      ((severityOf d s a).2 = Severity.high ∧
       (applyOverrides d s a (severityOf d s a)).2 = Severity.critical ∧
       d ≤ CRITICAL_DISTANCE / 2 ∧
       ((baseSeverity d s a).2 = Severity.none ∨ (baseSeverity d s a).2 = Severity.low))) :=
  applyOverrides_twice d s a (baseSeverity d s a)

section Monotonicity

variable {α : Type} [LinearOrderedField α] [DecidableRel ((· ≤ ·) : α → α → Prop)]

theorem distScore_mono {d1 d2 : α} (h : d2 ≤ d1)
    (hside : d1 ≤ LOW_DISTANCE ∨ LOW_DISTANCE < d2) :
    distScore d1 ≤ distScore d2 := by
  rcases hside with hside | hside <;>
    · simp only [distScore, CRITICAL_DISTANCE, HIGH_DISTANCE, MEDIUM_DISTANCE,
        LOW_DISTANCE] at *
      split_ifs <;>
        first
          | linarith
          | (rw [pymax_eq_max, pymax_eq_max]; exact max_le_max le_rfl (by linarith))

theorem speedScore_mono {s1 s2 : α} (h : s1 ≤ s2)
    (hside : LOW_SPEED ≤ s1 ∨ s2 < LOW_SPEED) :
    speedScore s1 ≤ speedScore s2 := by
  rcases hside with hside | hside <;>
    · simp only [speedScore, CRITICAL_SPEED, HIGH_SPEED, MEDIUM_SPEED, LOW_SPEED] at *
      split_ifs <;> linarith

theorem angleScore_mono {a1 a2 : α} (h : a2 ≤ a1)
    (hside : a1 ≤ LOW_ANGLE ∨ LOW_ANGLE < a2) :
    angleScore a1 ≤ angleScore a2 := by
  rcases hside with hside | hside <;>
    · simp only [angleScore, CRITICAL_ANGLE, HIGH_ANGLE, MEDIUM_ANGLE, LOW_ANGLE] at *
      split_ifs <;>
        first
          | linarith
          | (rw [pymax_eq_max, pymax_eq_max]; exact max_le_max le_rfl (by linarith))

end Monotonicity

section RankMonotonicity

variable {α : Type} [LinearOrderedField α] [DecidableRel ((· ≤ ·) : α → α → Prop)]

theorem combinedScore_mono_dist {d1 d2 : α} (h : d2 ≤ d1)
    (hside : d1 ≤ LOW_DISTANCE ∨ LOW_DISTANCE < d2) (s a : α) :
    combinedScore d1 s a ≤ combinedScore d2 s a := by
  have := distScore_mono h hside
  unfold combinedScore
  linarith

theorem combinedScore_mono_speed (d : α) {s1 s2 : α} (h : s1 ≤ s2)
    (hside : LOW_SPEED ≤ s1 ∨ s2 < LOW_SPEED) (a : α) :
    combinedScore d s1 a ≤ combinedScore d s2 a := by
  have := speedScore_mono h hside
  unfold combinedScore
  linarith

theorem combinedScore_mono_angle (d s : α) {a1 a2 : α} (h : a2 ≤ a1)
    (hside : a1 ≤ LOW_ANGLE ∨ LOW_ANGLE < a2) :
    combinedScore d s a1 ≤ combinedScore d s a2 := by
  have := angleScore_mono h hside
  unfold combinedScore
  linarith

set_option maxHeartbeats 1600000 in
theorem tierSelect_rank_mono (t1 t2 t3 t4 f7 f5 f3 u1 u2 u3 u4 g7 g5 g3 : Prop)
    [Decidable t1] [Decidable t2] [Decidable t3] [Decidable t4] [Decidable f7]
    [Decidable f5] [Decidable f3] [Decidable u1] [Decidable u2] [Decidable u3]
    [Decidable u4] [Decidable g7] [Decidable g5] [Decidable g3]
    (h1 : t1 → u1) (h2 : t2 → u2) (h3 : t3 → u3) (h4 : t4 → u4)
    (h7 : f7 → g7) (h5 : f5 → g5) (h3f : f3 → g3)
    (hb : ¬t4 → ¬u1 ∧ ¬u2 ∧ ¬u3 ∧ ¬u4) :
    sevRank (tierSelect t1 t2 t3 t4 f7 f5 f3).2 ≤
      sevRank (tierSelect u1 u2 u3 u4 g7 g5 g3).2 := by
  unfold tierSelect
  split_ifs <;>
    first
      | decide
      | exact absurd (h1 ‹t1›) ‹¬u1›
      | exact absurd (h2 ‹t2›) ‹¬u2›
      | exact absurd (h3 ‹t3›) ‹¬u3›
      | exact absurd (h4 ‹t4›) ‹¬u4›
      | exact absurd (h7 ‹f7›) ‹¬g7›
      | exact absurd (h5 ‹f5›) ‹¬g5›
      | exact absurd (h3f ‹f3›) ‹¬g3›
      | exact absurd ‹u1› ((hb ‹¬t4›).1)
      | exact absurd ‹u2› ((hb ‹¬t4›).2.1)
      | exact absurd ‹u3› ((hb ‹¬t4›).2.2.1)
      | exact absurd ‹u4› ((hb ‹¬t4›).2.2.2)

theorem baseSeverity_rank_mono_dist {d1 d2 : α} (h : d2 ≤ d1)
    (hside : d1 ≤ LOW_DISTANCE ∨ LOW_DISTANCE < d2) (s a : α) :
    sevRank (baseSeverity d1 s a).2 ≤ sevRank (baseSeverity d2 s a).2 := by
  have hcs := combinedScore_mono_dist h hside s a
  unfold baseSeverity
  refine tierSelect_rank_mono _ _ _ _ _ _ _ _ _ _ _ _ _ _
    (fun hh => ⟨le_trans h hh.1, hh.2⟩) (fun hh => ⟨le_trans h hh.1, hh.2⟩)
    (fun hh => ⟨le_trans h hh.1, hh.2⟩) (fun hh => ⟨le_trans h hh.1, hh.2⟩)
    (fun hh => le_trans hh hcs) (fun hh => le_trans hh hcs)
    (fun hh => le_trans hh hcs) ?_
  intro hn
  simp only [CRITICAL_DISTANCE, HIGH_DISTANCE, MEDIUM_DISTANCE, LOW_DISTANCE,
    CRITICAL_SPEED, HIGH_SPEED, MEDIUM_SPEED, LOW_SPEED, CRITICAL_ANGLE,
    HIGH_ANGLE, MEDIUM_ANGLE, LOW_ANGLE] at *
  rcases hside with hside | hside
  · exact ⟨fun hh => hn ⟨hside, hh.2.1, by linarith [hh.2.2]⟩,
      fun hh => hn ⟨hside, by linarith [hh.2.1], by linarith [hh.2.2]⟩,
      fun hh => hn ⟨hside, hh.2.1, by linarith [hh.2.2]⟩,
      fun hh => hn ⟨hside, hh.2.1, hh.2.2⟩⟩
  · exact ⟨fun hh => by linarith [hh.1], fun hh => by linarith [hh.1],
      fun hh => by linarith [hh.1], fun hh => by linarith [hh.1]⟩

theorem baseSeverity_rank_mono_speed (d : α) {s1 s2 : α} (h : s1 ≤ s2)
    (hside : LOW_SPEED ≤ s1 ∨ s2 < LOW_SPEED) (a : α) :
    sevRank (baseSeverity d s1 a).2 ≤ sevRank (baseSeverity d s2 a).2 := by
  have hcs := combinedScore_mono_speed d h hside a
  unfold baseSeverity
  refine tierSelect_rank_mono _ _ _ _ _ _ _ _ _ _ _ _ _ _
    (fun hh => ⟨hh.1, le_trans hh.2.1 h, hh.2.2⟩)
    (fun hh => ⟨hh.1, le_trans hh.2.1 h, hh.2.2⟩)
    (fun hh => ⟨hh.1, le_trans hh.2.1 h, hh.2.2⟩)
    (fun hh => ⟨hh.1, le_trans hh.2.1 h, hh.2.2⟩)
    (fun hh => le_trans hh hcs) (fun hh => le_trans hh hcs)
    (fun hh => le_trans hh hcs) ?_
  intro hn
  simp only [CRITICAL_DISTANCE, HIGH_DISTANCE, MEDIUM_DISTANCE, LOW_DISTANCE,
    CRITICAL_SPEED, HIGH_SPEED, MEDIUM_SPEED, LOW_SPEED, CRITICAL_ANGLE,
    HIGH_ANGLE, MEDIUM_ANGLE, LOW_ANGLE] at *
  rcases hside with hside | hside
  · exact ⟨fun hh => hn ⟨by linarith [hh.1], hside, by linarith [hh.2.2]⟩,
      fun hh => hn ⟨by linarith [hh.1], hside, by linarith [hh.2.2]⟩,
      fun hh => hn ⟨by linarith [hh.1], hside, by linarith [hh.2.2]⟩,
      fun hh => hn ⟨hh.1, hside, hh.2.2⟩⟩
  · exact ⟨fun hh => by linarith [hh.2.1], fun hh => by linarith [hh.2.1],
      fun hh => by linarith [hh.2.1], fun hh => by linarith [hh.2.1]⟩

theorem baseSeverity_rank_mono_angle (d s : α) {a1 a2 : α} (h : a2 ≤ a1)
    (hside : a1 ≤ LOW_ANGLE ∨ LOW_ANGLE < a2) :
    sevRank (baseSeverity d s a1).2 ≤ sevRank (baseSeverity d s a2).2 := by
  have hcs := combinedScore_mono_angle d s h hside
  unfold baseSeverity
  refine tierSelect_rank_mono _ _ _ _ _ _ _ _ _ _ _ _ _ _
    (fun hh => ⟨hh.1, hh.2.1, le_trans h hh.2.2⟩)
    (fun hh => ⟨hh.1, hh.2.1, le_trans h hh.2.2⟩)
    (fun hh => ⟨hh.1, hh.2.1, le_trans h hh.2.2⟩)
    (fun hh => ⟨hh.1, hh.2.1, le_trans h hh.2.2⟩)
    (fun hh => le_trans hh hcs) (fun hh => le_trans hh hcs)
    (fun hh => le_trans hh hcs) ?_
  intro hn
  simp only [CRITICAL_DISTANCE, HIGH_DISTANCE, MEDIUM_DISTANCE, LOW_DISTANCE,
    CRITICAL_SPEED, HIGH_SPEED, MEDIUM_SPEED, LOW_SPEED, CRITICAL_ANGLE,
    HIGH_ANGLE, MEDIUM_ANGLE, LOW_ANGLE] at *
  rcases hside with hside | hside
  · exact ⟨fun hh => hn ⟨by linarith [hh.1], hh.2.1, hside⟩,
      fun hh => hn ⟨by linarith [hh.1], by linarith [hh.2.1], hside⟩,
      fun hh => hn ⟨by linarith [hh.1], hh.2.1, hside⟩,
      fun hh => hn ⟨hh.1, hh.2.1, hside⟩⟩
  · exact ⟨fun hh => by linarith [hh.2.2], fun hh => by linarith [hh.2.2],
      fun hh => by linarith [hh.2.2], fun hh => by linarith [hh.2.2]⟩

end RankMonotonicity

section SeverityMono

variable {α : Type} [LinearOrderedField α] [DecidableRel ((· ≤ ·) : α → α → Prop)]

theorem applyOverrides_rank_mono (d1 s1 a1 d2 s2 a2 : α) (r1 r2 : Bool × Severity)
    (hc1 : d1 ≤ CRITICAL_DISTANCE / 2 → d2 ≤ CRITICAL_DISTANCE / 2)
    (hc2 : CRITICAL_SPEED ≤ s1 ∧ d1 ≤ HIGH_DISTANCE ∧ a1 ≤ HIGH_ANGLE →
      CRITICAL_SPEED ≤ s2 ∧ d2 ≤ HIGH_DISTANCE ∧ a2 ≤ HIGH_ANGLE)
    (hr : sevRank r1.2 ≤ sevRank r2.2) :
    sevRank (applyOverrides d1 s1 a1 r1).2 ≤ sevRank (applyOverrides d2 s2 a2 r2).2 := by
  simp only [applyOverrides]
  split_ifs <;> (try dsimp only) <;>
    first
      | exact absurd (hc1 ‹d1 ≤ CRITICAL_DISTANCE / 2›) ‹¬d2 ≤ CRITICAL_DISTANCE / 2›
      | exact absurd
          (hc2 ‹CRITICAL_SPEED ≤ s1 ∧ d1 ≤ HIGH_DISTANCE ∧ a1 ≤ HIGH_ANGLE›)
          ‹¬(CRITICAL_SPEED ≤ s2 ∧ d2 ≤ HIGH_DISTANCE ∧ a2 ≤ HIGH_ANGLE)›
      | rw [fastOverrideSev_rank, fastOverrideSev_rank]
      | (rw [fastOverrideSev_rank]; exact sevRank_le_four _)
      | exact closeOverrideSev_rank_mono _ _ hr
      | exact le_trans hr (le_closeOverrideSev_rank _)
      | exact hr

theorem severityOf_rank_mono_dist {d1 d2 : α} (h : d2 ≤ d1)
    (hside : d1 ≤ LOW_DISTANCE ∨ LOW_DISTANCE < d2) (s a : α) :
    sevRank (severityOf d1 s a).2 ≤ sevRank (severityOf d2 s a).2 := by
  unfold severityOf
  exact applyOverrides_rank_mono _ _ _ _ _ _ _ _
    (fun hh => le_trans h hh)
    (fun hh => ⟨hh.1, le_trans h hh.2.1, hh.2.2⟩)
    (baseSeverity_rank_mono_dist h hside s a)

theorem severityOf_rank_mono_speed (d : α) {s1 s2 : α} (h : s1 ≤ s2)
    (hside : LOW_SPEED ≤ s1 ∨ s2 < LOW_SPEED) (a : α) :
    sevRank (severityOf d s1 a).2 ≤ sevRank (severityOf d s2 a).2 := by
  unfold severityOf
  exact applyOverrides_rank_mono _ _ _ _ _ _ _ _
    (fun hh => hh)
    (fun hh => ⟨le_trans hh.1 h, hh.2⟩)
    (baseSeverity_rank_mono_speed d h hside a)

theorem severityOf_rank_mono_angle (d s : α) {a1 a2 : α} (h : a2 ≤ a1)
    (hside : a1 ≤ LOW_ANGLE ∨ LOW_ANGLE < a2) :
    sevRank (severityOf d s a1).2 ≤ sevRank (severityOf d s a2).2 := by
  unfold severityOf
  exact applyOverrides_rank_mono _ _ _ _ _ _ _ _
    (fun hh => hh)
    (fun hh => ⟨hh.1, hh.2.1, le_trans h hh.2.2⟩)
    (baseSeverity_rank_mono_angle d s h hside)

end SeverityMono

/-- C3, counterexample: severity is not monotone along any of the three
axes.  At speed 0 and angle 0, distance 29 scores severity low while the
larger distance 31 scores medium; at distance 6 and angle 10, speed 5
scores medium while the smaller speed 4.9 scores high; at distance 25 and
speed 0, angle 59 scores none while the larger angle 61 scores low.  Each
violation is driven by the linear-decay score restarting near 1 just past
the lowest tier threshold, or by a tier capping the fallback severity. -/
theorem C3_cex_not_monotone :
    sevRank (severityOf (29 : ℚ) 0 0).2 < sevRank (severityOf (31 : ℚ) 0 0).2 ∧
    sevRank (severityOf (6 : ℚ) 5 10).2 < sevRank (severityOf (6 : ℚ) (49 / 10) 10).2 ∧
    sevRank (severityOf (25 : ℚ) 0 59).2 < sevRank (severityOf (25 : ℚ) 0 61).2 := by
  refine ⟨?_, ?_, ?_⟩ <;> with_unfolding_all decide

/-- C3, amended: the three monotonicity properties hold as long as the
varied quantity stays on one side of its lowest threshold tier: decreasing
distance never lowers the severity rank when the larger distance is within
LOW_DISTANCE or both are beyond it; increasing speed never lowers the rank
when the smaller speed already meets LOW_SPEED or both are below it;
decreasing angle-from-center never lowers the rank when the larger angle is
within LOW_ANGLE or both are beyond it. -/
theorem C3_monotone_within_tiers {α : Type} [LinearOrderedField α]
    [DecidableRel ((· ≤ ·) : α → α → Prop)] :
    (∀ d1 d2 s a : α, d2 ≤ d1 → (d1 ≤ LOW_DISTANCE ∨ LOW_DISTANCE < d2) →
      sevRank (severityOf d1 s a).2 ≤ sevRank (severityOf d2 s a).2) ∧
    (∀ d s1 s2 a : α, s1 ≤ s2 → (LOW_SPEED ≤ s1 ∨ s2 < LOW_SPEED) →
      sevRank (severityOf d s1 a).2 ≤ sevRank (severityOf d s2 a).2) ∧
    (∀ d s a1 a2 : α, a2 ≤ a1 → (a1 ≤ LOW_ANGLE ∨ LOW_ANGLE < a2) →
      sevRank (severityOf d s a1).2 ≤ sevRank (severityOf d s a2).2) :=
  ⟨fun _ _ s a h hside => severityOf_rank_mono_dist h hside s a,
   fun d _ _ a h hside => severityOf_rank_mono_speed d h hside a,
   fun d s _ _ h hside => severityOf_rank_mono_angle d s h hside⟩

/-- Witness for C3_monotone_within_tiers at concrete inputs. -/
theorem C3_monotone_within_tiers_witness :
    sevRank (severityOf (20 : ℚ) 0 0).2 ≤ sevRank (severityOf (10 : ℚ) 0 0).2 ∧
    sevRank (severityOf (6 : ℚ) 6 10).2 ≤ sevRank (severityOf (6 : ℚ) 12 10).2 ∧
    sevRank (severityOf (25 : ℚ) 0 50).2 ≤ sevRank (severityOf (25 : ℚ) 0 40).2 :=
  ⟨C3_monotone_within_tiers.1 20 10 0 0 (by norm_num)
      (Or.inl (by norm_num [LOW_DISTANCE])),
   C3_monotone_within_tiers.2.1 6 6 12 10 (by norm_num)
      (Or.inl (by norm_num [LOW_SPEED])),
   C3_monotone_within_tiers.2.2 25 0 50 40 (by norm_num)
      (Or.inl (by norm_num [LOW_ANGLE]))⟩

/-- C7: calculate_distance equals the spec's clamp formula for every
bounding box and view (100 m when the bbox height is not positive), and at
the spec's example bbox (500, 300, 80, 160) it returns exactly 1 meter. -/
theorem C7_calculate_distance_formula :
    (∀ (α : Type) (_ : LinearOrderedField α)
      (_ : DecidableRel ((· ≤ ·) : α → α → Prop))
      (_ : DecidableRel ((· < ·) : α → α → Prop))
      (bbox : α × α × α × α) (view : String),
      calculate_distance bbox view = distanceSpec bbox) ∧
    calculate_distance ((500 : ℚ), 300, 80, 160) "front" = 1 := by
  constructor
  · intro α instF instLe instLt bbox view
    simp [calculate_distance, distanceSpec, clampSpec, pymax_eq_max, pymin_eq_min]
  · with_unfolding_all decide

theorem check_alerts_fold (vs : List AlertVehicle) :
    ∀ (b : Bool) (m : Severity) (msgs : List String),
      (vs.foldl checkAlertsStep (b, m, msgs)).1 =
        (b || vs.any (fun v => v.collision_detected)) ∧
      (vs.foldl checkAlertsStep (b, m, msgs)).2.1 =
        ((vs.filter (fun v => v.collision_detected)).map
          (fun v => v.severity)).foldl sevMax m := by
  induction vs with
  | nil => intro b m msgs; simp
  | cons v t ih =>
    intro b m msgs
    by_cases hv : v.collision_detected <;>
      simp only [List.foldl_cons, List.any_cons, List.filter_cons, List.map_cons,
        checkAlertsStep, hv, if_true, if_false, Bool.true_or, Bool.false_or,
        Bool.true_and, ite_true, ite_false]
    · constructor
      · rw [(ih true _ _).1]
        simp
      · rw [(ih true _ _).2]
        simp [sevMax]
    · simp only [Bool.false_eq_true, ite_false]
      exact ih b m msgs

/-- C8: check_alerts of the empty list is (false, none, []); for every
list, the returned flag is true iff some record has collision_detected,
and the returned severity is the fold of the severity maximum (under
none < low < medium < high < critical) over the flagged records only,
starting from none. -/
theorem C8_check_alerts_aggregate :
    check_alerts [] = (false, Severity.none, []) ∧
    (∀ vs : List AlertVehicle,
      (check_alerts vs).1 = vs.any (fun v => v.collision_detected) ∧
      (check_alerts vs).2.1 =
        ((vs.filter (fun v => v.collision_detected)).map
          (fun v => v.severity)).foldl sevMax Severity.none) := by
  refine ⟨rfl, fun vs => ⟨?_, ?_⟩⟩
  · rw [check_alerts, (check_alerts_fold vs false Severity.none []).1]
    simp
  · exact (check_alerts_fold vs false Severity.none []).2

/-- C10: for any view tag outside front/back/left/right, calculate_angle
falls through the if/elif chain with no remapping: it returns the
normalized raw atan2 bearing, the same value as for view front. -/
theorem C10_unknown_view_no_remap (fw fh : ℚ) (bbox : ℚ × ℚ × ℚ × ℚ)
    (view : String)
    (h : view ∉ (["front", "back", "left", "right"] : List String)) :
    calculate_angle fw fh bbox view = rawBearingDeg fw fh bbox ∧
    calculate_angle fw fh bbox view = calculate_angle fw fh bbox "front" := by
  simp only [List.mem_cons, List.not_mem_nil, or_false, not_or] at h
  obtain ⟨h1, h2, h3, h4⟩ := h
  constructor <;> simp [calculate_angle, h1, h2, h3, h4]

/-- Witness for C10_unknown_view_no_remap at the view tag "top". -/
theorem C10_unknown_view_no_remap_witness :
    calculate_angle 1280 720 (500, 300, 80, 160) "top" =
      rawBearingDeg 1280 720 (500, 300, 80, 160) ∧
    calculate_angle 1280 720 (500, 300, 80, 160) "top" =
      calculate_angle 1280 720 (500, 300, 80, 160) "front" :=
  C10_unknown_view_no_remap 1280 720 (500, 300, 80, 160) "top" (by decide)

theorem arctan_fifth_lt : Real.arctan (1 / 5) < Real.pi / 4 := by
  rw [show Real.pi / 4 = Real.arctan 1 from Real.arctan_one.symm]
  exact Real.arctan_strictMono (by norm_num)

theorem arctan_fifth_pos : 0 < Real.arctan (1 / 5) := by
  rw [show (0 : ℝ) = Real.arctan 0 from Real.arctan_zero.symm]
  exact Real.arctan_strictMono (by norm_num)

theorem atan2_example : atan2 20 (-100) = Real.pi - Real.arctan (1 / 5) := by
  rw [atan2, if_neg (by norm_num), if_pos (by norm_num)]
  rw [show ((20 : ℝ) / (-100)) = -(1 / 5) by norm_num, Real.arctan_neg]
  ring

theorem rawBearingDeg_example :
    rawBearingDeg 1280 720 (500, 300, 80, 160) =
      (Real.pi - Real.arctan (1 / 5)) * (180 / Real.pi) := by
  have hpi := Real.pi_pos
  have hat := arctan_fifth_lt
  simp only [rawBearingDeg]
  norm_num
  rw [atan2_example, if_neg]
  push_neg
  have h1 : 0 < Real.pi - Real.arctan (1 / 5) := by linarith
  positivity

theorem rawBearingDeg_example_bounds :
    135 < rawBearingDeg 1280 720 (500, 300, 80, 160) ∧
    rawBearingDeg 1280 720 (500, 300, 80, 160) < 180 := by
  have hpi := Real.pi_pos
  have hat := arctan_fifth_lt
  have hat0 := arctan_fifth_pos
  rw [rawBearingDeg_example]
  have hexp : (Real.pi - Real.arctan (1 / 5)) * (180 / Real.pi) =
      180 - Real.arctan (1 / 5) * (180 / Real.pi) := by
    field_simp
    ring
  have h45 : Real.pi / 4 * (180 / Real.pi) = 45 := by
    field_simp
    ring
  have hu : 0 < 180 / Real.pi := by positivity
  constructor
  · rw [hexp]
    have := mul_lt_mul_of_pos_right hat hu
    rw [h45] at this
    linarith
  · rw [hexp]
    have := mul_pos hat0 hu
    linarith

theorem severityOf_close_slow_wide {a : ℝ} (h1 : 120 ≤ a) (h2 : a ≤ 240) :
    severityOf (1 : ℝ) 0 a = (true, Severity.high) := by
  have hds : distScore (1 : ℝ) = 1 := by
    rw [distScore, if_pos]
    norm_num [CRITICAL_DISTANCE]
  have hss : speedScore (0 : ℝ) = 0 := by
    simp only [speedScore, CRITICAL_SPEED, HIGH_SPEED, MEDIUM_SPEED, LOW_SPEED]
    norm_num
  have has : angleScore a = 0 := by
    simp only [angleScore, CRITICAL_ANGLE, HIGH_ANGLE, MEDIUM_ANGLE, LOW_ANGLE]
    rw [if_neg (by linarith), if_neg (by linarith), if_neg (by linarith),
      if_neg (by linarith), pymax_eq_max]
    exact max_eq_left (by linarith)
  have hcs : combinedScore (1 : ℝ) 0 a = 2 / 5 := by
    rw [combinedScore, hds, hss, has]
    ring
  have hbase : baseSeverity (1 : ℝ) 0 a = (true, Severity.low) := by
    rw [baseSeverity, tierSelect, hcs]
    simp only [CRITICAL_DISTANCE, HIGH_DISTANCE, MEDIUM_DISTANCE, LOW_DISTANCE,
      CRITICAL_SPEED, HIGH_SPEED, MEDIUM_SPEED, LOW_SPEED, CRITICAL_ANGLE,
      HIGH_ANGLE, MEDIUM_ANGLE, LOW_ANGLE]
    rw [if_neg (by rintro ⟨-, hx, -⟩; norm_num at hx),
      if_neg (by rintro ⟨-, hx, -⟩; norm_num at hx),
      if_neg (by rintro ⟨-, hx, -⟩; norm_num at hx),
      if_neg (by rintro ⟨-, hx, -⟩; norm_num at hx),
      if_neg (by norm_num), if_neg (by norm_num), if_pos (by norm_num)]
  rw [severityOf, hbase, applyOverrides]
  simp only [CRITICAL_DISTANCE, CRITICAL_SPEED, HIGH_DISTANCE, HIGH_ANGLE]
  rw [if_neg (by rintro ⟨hx, -, -⟩; norm_num at hx)]
  rw [if_pos (by norm_num)]
  simp [closeOverrideSev]

theorem calculate_distance_example_real :
    calculate_distance (α := ℝ) (500, 300, 80, 160) "front" = 1 := by
  simp only [calculate_distance, REAL_VEHICLE_WIDTH, FOCAL_LENGTH, PIXELS_PER_METER]
  rw [if_pos (by norm_num)]
  rw [pymin, if_pos (by norm_num), pymax, if_neg (by norm_num)]

theorem analyze_vehicle_example :
    (analyze_vehicle 1280 720 (500, 300, 80, 160)
      ⟨(540, 380), (0, 0), 0, 0⟩ "front").severity = Severity.high ∧
    (analyze_vehicle 1280 720 (500, 300, 80, 160)
      ⟨(540, 380), (0, 0), 0, 0⟩ "front").collision_detected = true := by
  obtain ⟨hb1, hb2⟩ := rawBearingDeg_example_bounds
  have hangle : calculate_angle 1280 720 (500, 300, 80, 160) "front" =
      rawBearingDeg 1280 720 (500, 300, 80, 160) := by
    simp [calculate_angle]
  have hsm : Real.sqrt ((0 : ℝ) ^ 2 + (0 : ℝ) ^ 2) = 0 := by
    norm_num
  have hspeed : pymax (0 : ℝ) (Real.sqrt ((0 : ℝ) ^ 2 + (0 : ℝ) ^ 2)) = 0 := by
    rw [hsm, pymax, if_pos le_rfl]
  set raw := rawBearingDeg 1280 720 (500, 300, 80, 160) with hraw
  have hafc0 : |raw - 0| = raw := by
    rw [sub_zero]
    exact abs_of_pos (by linarith)
  have hsev := severityOf_close_slow_wide (a := raw) (by linarith) (by linarith)
  simp only [analyze_vehicle, predict_collision, hangle]
  push_cast
  simp only [hafc0, hspeed, true_or, if_true, eq_self_iff_true,
    calculate_distance_example_real]
  rw [if_neg (by push_neg; linarith)]
  rw [hsev]
  exact ⟨rfl, rfl⟩

/-- C1, counterexample: at the spec's example input (bbox (500,300,80,160)
in a 1280x720 front view, on the first tick of the track: position at the
bbox center (540,380), velocity (0,0), mean speed 0), analyze_vehicle does
not return severity none. -/
theorem C1_cex_first_tick_not_none :
    (analyze_vehicle 1280 720 (500, 300, 80, 160)
      ⟨(540, 380), (0, 0), 0, 0⟩ "front").severity ≠ Severity.none := by
  rw [analyze_vehicle_example.1]
  intro hcontra
  exact Severity.noConfusion hcontra

/-- C1, amended: at the spec's example first-tick input the returned
severity is high with the collision flag set: the speed gates of all four
tiers indeed fail, but the combined-score fallback (distance score 1.0
gives 0.4 >= 0.3) yields low with a collision, and the
distance <= CRITICAL_DISTANCE/2 override (distance is clamped to 1.0 m)
escalates low to high. -/
theorem C1_first_tick_severity_high :
    (analyze_vehicle 1280 720 (500, 300, 80, 160)
      ⟨(540, 380), (0, 0), 0, 0⟩ "front").severity = Severity.high ∧
    (analyze_vehicle 1280 720 (500, 300, 80, 160)
      ⟨(540, 380), (0, 0), 0, 0⟩ "front").collision_detected = true :=
  analyze_vehicle_example

/-- C4 evaluation: with one live track whose estimated velocity is (10, 0)
and center (0, 0), presenting the same detection (centered (10, 0)) twice
yields cost-matrix rows [0] and [100]: the first row measured against the
one-step-ahead center (10, 0), the second against (20, 0), because the
source calls kf.predict() once per (detection, tracker) pair inside the
cost loop.  The returned tracker state indeed carries the center advanced
two steps. -/
theorem C4_cost_rows_use_different_centers :
    (buildCostMatrix c4state [(5, -5, 10, 10), (5, -5, 10, 10)]).2 = [[0], [100]] ∧
    (buildCostMatrix c4state [(5, -5, 10, 10), (5, -5, 10, 10)]).1.tracks.map
      (fun p => kfCenter p.2.kf) = [(20, 0)] := by
  constructor <;> with_unfolding_all decide

/-- C5 evaluation: tracker with live ids 0 (counter 30) and 1 (counter 0),
one detection far from both (no match, so it spawns id 2).  The
unmatched-tracker loop resolves positional index 0 to id 0, evicts it
(31 > 30), and then resolves positional index 1 in the SHRUNK key list
[1, 2] to the freshly created id 2: the missed track 1 never increments
(stays 0) and the new track 2 ends with counter 1 instead of 0. -/
theorem C5_aging_uses_shifted_indices :
    (update c5state [(595, -5, 10, 10)] (640, 360) 1).map
      (fun s => (getCounter s 0, getCounter s 1, getCounter s 2, liveIds s)) =
      some (Option.none, some 0, some 1, [1, 2]) := by
  with_unfolding_all decide

theorem scanRow_costEq (cm : List (List ℚ)) (i : ℕ) :
    ∀ (ut : List ℕ) (best : Option (ℚ × ℕ × ℕ)),
      (∀ c a b, best = some (c, a, b) → c = costAt cm a b) →
      ∀ c a b, scanRow cm i ut best = some (c, a, b) → c = costAt cm a b := by
  intro ut
  induction ut with
  | nil =>
    intro best hbest c a b h
    rw [scanRow] at h
    exact hbest c a b h
  | cons j rest ih =>
    intro best hbest
    simp only [scanRow]
    apply ih
    intro c a b h
    rcases best with _ | ⟨bc, bi, bj⟩
    · simp only at h
      rcases h with ⟨rfl, rfl, rfl⟩
      rfl
    · simp only at h
      split_ifs at h
      · rcases h with ⟨rfl, rfl, rfl⟩
        rfl
      · exact hbest c a b h

theorem findMin_costEq (cm : List (List ℚ)) :
    ∀ (ud ut : List ℕ) (best : Option (ℚ × ℕ × ℕ)),
      (∀ c a b, best = some (c, a, b) → c = costAt cm a b) →
      ∀ c a b, findMin cm ud ut best = some (c, a, b) → c = costAt cm a b := by
  intro ud
  induction ud with
  | nil =>
    intro ut best hbest c a b h
    rw [findMin] at h
    exact hbest c a b h
  | cons i rest ih =>
    intro ut best hbest
    rw [findMin]
    exact ih ut _ (scanRow_costEq cm i ut best hbest)

theorem greedyLoop_matched_gate (cm : List (List ℚ)) :
    ∀ (fuel : ℕ) (ud ut : List ℕ) (acc : List (ℕ × ℕ)),
      (∀ p ∈ acc, costAt cm p.1 p.2 < 10000) →
      ∀ p ∈ (greedyLoop cm fuel ud ut acc).1, costAt cm p.1 p.2 < 10000 := by
  intro fuel
  induction fuel with
  | zero =>
    intro ud ut acc hacc p hp
    rw [greedyLoop] at hp
    exact hacc p hp
  | succ n ih =>
    intro ud ut acc hacc p hp
    rw [greedyLoop] at hp
    rcases hfm : findMin cm ud ut Option.none with _ | ⟨c, i, j⟩ <;> rw [hfm] at hp
    · exact hacc p hp
    · dsimp only at hp
      by_cases hc : c < 10000
      · rw [if_pos hc] at hp
        refine ih _ _ _ ?_ p hp
        intro q hq
        rcases List.mem_append.1 hq with hq | hq
        · exact hacc q hq
        · rcases List.mem_singleton.1 hq with rfl
          have := findMin_costEq cm ud ut Option.none (by intro _ _ _ h; cases h)
            c i j hfm
          simpa [this] using hc
      · rw [if_neg hc] at hp
        exact hacc p hp

theorem buildCostMatrix_rows_nonneg (dets : List BBox) :
    ∀ (tracks : List (ℕ × Track)) (acc : List (List ℚ)),
      (∀ row ∈ acc, ∀ x ∈ row, (0 : ℚ) ≤ x) →
      ∀ row ∈ (dets.foldl
        (fun acc det =>
          let tracks1 := predictAll acc.1
          (tracks1, acc.2 ++ [costRow (detCenter det) tracks1]))
        (tracks, acc)).2, ∀ x ∈ row, (0 : ℚ) ≤ x := by
  induction dets with
  | nil =>
    intro tracks acc hacc
    simpa using hacc
  | cons d rest ih =>
    intro tracks acc hacc
    rw [List.foldl_cons]
    refine ih _ _ ?_
    intro row hrow x hx
    rcases List.mem_append.1 hrow with hrow | hrow
    · exact hacc row hrow x hx
    · rcases List.mem_singleton.1 hrow with rfl
      rw [costRow] at hx
      rcases List.mem_map.1 hx with ⟨p, -, rfl⟩
      exact add_nonneg (sq_nonneg _) (sq_nonneg _)

theorem costAt_nonneg (cm : List (List ℚ))
    (h : ∀ row ∈ cm, ∀ x ∈ row, (0 : ℚ) ≤ x) (i j : ℕ) : 0 ≤ costAt cm i j := by
  rw [costAt, List.getD_eq_getElem?_getD, List.getD_eq_getElem?_getD]
  rcases h1 : cm[i]? with _ | row
  · simp
  · rw [Option.getD_some]
    rcases h2 : row[j]? with _ | x
    · simp
    · rw [Option.getD_some]
      exact h row (List.getElem?_mem h1) x (List.getElem?_mem h2)

/-- C6: every match produced by the greedy association has its cost-matrix
entry strictly below the gate: squared distance below 10000, equivalently
Euclidean distance below the 100 px gate. -/
theorem C6_matches_below_gate (st : TrackerState) (dets : List BBox) (p : ℕ × ℕ)
    (hp : p ∈ (associateMatch (buildCostMatrix st dets).2 dets.length
      st.tracks.length).matched) :
    costAt (buildCostMatrix st dets).2 p.1 p.2 < 10000 ∧
    Real.sqrt ((costAt (buildCostMatrix st dets).2 p.1 p.2 : ℚ) : ℝ) < 100 := by
  have hnn : (0 : ℚ) ≤ costAt (buildCostMatrix st dets).2 p.1 p.2 := by
    refine costAt_nonneg _ ?_ _ _
    intro row hrow x hx
    rw [buildCostMatrix] at hrow
    exact buildCostMatrix_rows_nonneg dets st.tracks [] (by simp) row hrow x hx
  have hgate : costAt (buildCostMatrix st dets).2 p.1 p.2 < 10000 := by
    rw [associateMatch] at hp
    split_ifs at hp with hguard
    · exact greedyLoop_matched_gate _ _ _ _ _ (by simp) p hp
    · simp at hp
  refine ⟨hgate, ?_⟩
  have h0 : (0 : ℝ) ≤ ((costAt (buildCostMatrix st dets).2 p.1 p.2 : ℚ) : ℝ) := by
    exact_mod_cast hnn
  have h1 : ((costAt (buildCostMatrix st dets).2 p.1 p.2 : ℚ) : ℝ) < 10000 := by
    exact_mod_cast hgate
  calc Real.sqrt ((costAt (buildCostMatrix st dets).2 p.1 p.2 : ℚ) : ℝ)
      < Real.sqrt 10000 := Real.sqrt_lt_sqrt h0 h1
    _ = 100 := by
        rw [show (10000 : ℝ) = 100 ^ 2 by norm_num, Real.sqrt_sq (by norm_num)]

/-- Witness for C6_matches_below_gate: one track centered (10, 0) with zero
velocity and one detection at the same center, matched at cost 0. -/
theorem C6_matches_below_gate_witness :
    costAt (buildCostMatrix c6state [(5, -5, 10, 10)]).2 0 0 < 10000 ∧
    Real.sqrt ((costAt (buildCostMatrix c6state [(5, -5, 10, 10)]).2 0 0 : ℚ) : ℝ) < 100 :=
  C6_matches_below_gate c6state [(5, -5, 10, 10)] (0, 0)
    (by with_unfolding_all decide)

theorem set_self_of_get? {α : Type} :
    ∀ (l : List α) (i : ℕ) (a : α), l.get? i = some a → l.set i a = l := by
  intro l
  induction l with
  | nil => intro i a h; cases h
  | cons x xs ih =>
    intro i a h
    cases i with
    | zero =>
      cases h
      rfl
    | succ n =>
      rw [List.set]
      rw [ih n a h]

theorem updateTrackerAt_ids {tracks : List (ℕ × Track)} {i : ℕ} {det : BBox}
    {t : ℚ} {tracks2 : List (ℕ × Track)}
    (h : updateTrackerAt tracks i det t = some tracks2) :
    tracks2.map Prod.fst = tracks.map Prod.fst := by
  rw [updateTrackerAt] at h
  rcases h1 : tracks.get? i with _ | ⟨tid, track⟩ <;> rw [h1] at h
  · cases h
  · cases h
    rw [List.map_set]
    apply set_self_of_get?
    rw [List.get?_map, h1]
    rfl

theorem matchedFold_ids (dets : List BBox) (t : ℚ) :
    ∀ (ms : List (ℕ × ℕ)) (trs trs2 : List (ℕ × Track)),
      ms.foldlM (fun trs m =>
        updateTrackerAt trs m.2 (dets.getD m.1 (0, 0, 0, 0)) t) trs = some trs2 →
      trs2.map Prod.fst = trs.map Prod.fst := by
  intro ms
  induction ms with
  | nil =>
    intro trs trs2 h
    cases h
    rfl
  | cons m rest ih =>
    intro trs trs2 h
    rw [List.foldlM_cons] at h
    rcases h1 : updateTrackerAt trs m.2 (dets.getD m.1 (0, 0, 0, 0)) t with _ | trs1 <;>
      rw [h1] at h
    · cases h
    · rw [ih trs1 trs2 (by simpa using h), updateTrackerAt_ids h1]

theorem ageTrackerAt_ids_sublist {maxd : ℕ} {tracks : List (ℕ × Track)} {idx : ℕ}
    {tracks2 : List (ℕ × Track)} (h : ageTrackerAt maxd tracks idx = some tracks2) :
    (tracks2.map Prod.fst).Sublist (tracks.map Prod.fst) := by
  rw [ageTrackerAt] at h
  rcases h1 : tracks.get? idx with _ | ⟨tid, track⟩ <;> rw [h1] at h
  · cases h
  · dsimp only at h
    split_ifs at h with hd
    · cases h
      exact (List.filter_sublist _).map _
    · cases h
      have hids : (tracks.map (fun p =>
          if p.1 = tid then (tid, { track with disappeared := track.disappeared + 1 })
          else p)).map Prod.fst = tracks.map Prod.fst := by
        rw [List.map_map]
        apply List.map_congr_left
        intro p _
        by_cases hp : p.1 = tid
        · simp [hp]
        · simp [hp]
      rw [hids]

theorem ageFold_ids_sublist (maxd : ℕ) :
    ∀ (ut : List ℕ) (trs trs2 : List (ℕ × Track)),
      ut.foldlM (ageTrackerAt maxd) trs = some trs2 →
      (trs2.map Prod.fst).Sublist (trs.map Prod.fst) := by
  intro ut
  induction ut with
  | nil =>
    intro trs trs2 h
    cases h
    exact List.Sublist.refl _
  | cons i rest ih =>
    intro trs trs2 h
    rw [List.foldlM_cons] at h
    rcases h1 : ageTrackerAt maxd trs i with _ | trs1 <;> rw [h1] at h
    · cases h
    · exact (ih trs1 trs2 (by simpa using h)).trans (ageTrackerAt_ids_sublist h1)

theorem ageAll_ids_sublist (maxd : ℕ) :
    ∀ tracks : List (ℕ × Track),
      ((ageAll maxd tracks).map Prod.fst).Sublist (tracks.map Prod.fst) := by
  intro tracks
  induction tracks with
  | nil => simp [ageAll]
  | cons p rest ih =>
    rw [ageAll, List.filterMap_cons]
    have ihr : ((ageAll maxd rest).map Prod.fst).Sublist (rest.map Prod.fst) := ih
    rw [ageAll] at ihr
    dsimp only
    split_ifs with hd
    · simpa using ihr.cons p.1
    · simpa using ihr.cons₂ p.1

theorem buildCostMatrix_ids (st : TrackerState) (dets : List BBox) :
    (buildCostMatrix st dets).1.tracks.map Prod.fst = st.tracks.map Prod.fst := by
  rw [buildCostMatrix]
  have key : ∀ (ds : List BBox) (tracks : List (ℕ × Track)) (acc : List (List ℚ)),
      ((ds.foldl (fun acc det =>
          let tracks1 := predictAll acc.1
          (tracks1, acc.2 ++ [costRow (detCenter det) tracks1]))
        (tracks, acc)).1).map Prod.fst = tracks.map Prod.fst := by
    intro ds
    induction ds with
    | nil => intro tracks acc; rfl
    | cons d rest ihd =>
      intro tracks acc
      rw [List.foldl_cons]
      rw [ihd]
      rw [predictAll, List.map_map]
      rfl
  exact key dets st.tracks []

theorem createTracker_liveIds (st : TrackerState) (det : BBox) (t : ℚ) :
    liveIds (createTracker st det t) = liveIds st ++ [st.next_id] ∧
    (createTracker st det t).next_id = st.next_id + 1 := by
  constructor
  · rw [liveIds, createTracker]
    simp [liveIds]
  · rfl

theorem createTracker_wf {st : TrackerState} (hwf : trackerWF st) (det : BBox)
    (t : ℚ) : trackerWF (createTracker st det t) := by
  obtain ⟨hl, hn⟩ := createTracker_liveIds st det t
  rcases hwf with ⟨hnd, hlt⟩
  constructor
  · rw [hl, List.nodup_append]
    refine ⟨hnd, List.nodup_singleton _, ?_⟩
    intro a ha hb
    rw [List.mem_singleton] at hb
    subst hb
    exact lt_irrefl _ (hlt _ ha)
  · intro tid htid
    rw [hl, List.mem_append, List.mem_singleton] at htid
    rw [hn]
    rcases htid with h | h
    · exact lt_trans (hlt _ h) (Nat.lt_succ_self _)
    · rw [h]
      exact Nat.lt_succ_self _

theorem createFold_wf {α : Type} (g : α → BBox) (t : ℚ) :
    ∀ (dets : List α) (s : TrackerState), trackerWF s →
      trackerWF (dets.foldl (fun s det => createTracker s (g det) t) s) ∧
      s.next_id ≤ (dets.foldl (fun s det => createTracker s (g det) t) s).next_id ∧
      ∀ tid ∈ liveIds (dets.foldl (fun s det => createTracker s (g det) t) s),
        tid ∈ liveIds s ∨ s.next_id ≤ tid := by
  intro dets
  induction dets with
  | nil =>
    intro s hs
    exact ⟨hs, le_rfl, fun tid h => Or.inl h⟩
  | cons d rest ih =>
    intro s hs
    rw [List.foldl_cons]
    obtain ⟨hwf, hmono, hsub⟩ := ih (createTracker s (g d) t) (createTracker_wf hs (g d) t)
    obtain ⟨hl, hn⟩ := createTracker_liveIds s (g d) t
    refine ⟨hwf, ?_, ?_⟩
    · rw [hn] at hmono
      omega
    · intro tid htid
      rcases hsub tid htid with h | h
      · rw [hl, List.mem_append, List.mem_singleton] at h
        rcases h with h | h
        · exact Or.inl h
        · exact Or.inr (le_of_eq h.symm)
      · rw [hn] at h
        exact Or.inr (by omega)

theorem update_wf_step {st : TrackerState} {detections : List BBox}
    {fc : ℚ × ℚ} {t : ℚ} {st2 : TrackerState} (hwf : trackerWF st)
    (h : update st detections fc t = some st2) :
    trackerWF st2 ∧ st.next_id ≤ st2.next_id ∧
      ∀ tid ∈ liveIds st2, tid ∈ liveIds st ∨ st.next_id ≤ tid := by
  have hwf2 := hwf
  rcases hwf2 with ⟨hnd, hlt⟩
  simp only [update] at h
  split_ifs at h with hemp htrk
  · cases h
    have hsub := ageAll_ids_sublist st.max_disappeared st.tracks
    refine ⟨⟨List.Nodup.sublist hsub hnd, ?_⟩, le_rfl, ?_⟩
    · intro tid htid
      exact hlt tid (hsub.subset htid)
    · intro tid htid
      exact Or.inl (hsub.subset htid)
  · cases h
    have := createFold_wf (fun d : BBox => d) t detections st hwf
    exact ⟨by simpa using this.1, by simpa using this.2.1, by simpa using this.2.2⟩
  · rcases hm : (associateMatch (buildCostMatrix st detections).2 detections.length
        st.tracks.length).matched.foldlM
        (fun trs m => updateTrackerAt trs m.2 (detections.getD m.1 (0, 0, 0, 0)) t)
        (buildCostMatrix st detections).1.tracks with _ | tracks2 <;> rw [hm] at h
    · cases h
    · rw [Option.some_bind] at h
      have hids2 : tracks2.map Prod.fst = st.tracks.map Prod.fst := by
        rw [matchedFold_ids detections t _ _ _ hm, buildCostMatrix_ids]
      have hwfmid : trackerWF
          { buildCostMatrix st detections |>.1 with tracks := tracks2 } := by
        constructor
        · show (tracks2.map Prod.fst).Nodup
          rw [hids2]
          exact hnd
        · intro tid htid
          show tid < (buildCostMatrix st detections).1.next_id
          have : tid ∈ st.tracks.map Prod.fst := by
            rw [← hids2]
            exact htid
          exact hlt tid this
      obtain ⟨hwf3, hmono3, hsub3⟩ := createFold_wf
        (fun i : ℕ => detections.getD i (0, 0, 0, 0)) t
        (associateMatch (buildCostMatrix st detections).2 detections.length
          st.tracks.length).unmatched_dets
        { buildCostMatrix st detections |>.1 with tracks := tracks2 } hwfmid
      rcases ha : (associateMatch (buildCostMatrix st detections).2 detections.length
          st.tracks.length).unmatched_trks.foldlM
          (ageTrackerAt st.max_disappeared)
          ((associateMatch (buildCostMatrix st detections).2 detections.length
            st.tracks.length).unmatched_dets.foldl
            (fun s i => createTracker s (detections.getD i (0, 0, 0, 0)) t)
            { buildCostMatrix st detections |>.1 with tracks := tracks2 }).tracks
          with _ | tracks4 <;> rw [ha] at h
      · cases h
      · rw [Option.some_bind] at h
        cases h
        have hsub4 := ageFold_ids_sublist st.max_disappeared _ _ _ ha
        rcases hwf3 with ⟨hnd3, hlt3⟩
        refine ⟨⟨List.Nodup.sublist hsub4 hnd3, ?_⟩, hmono3, ?_⟩
        · intro tid htid
          exact hlt3 tid (hsub4.subset htid)
        · intro tid htid
          have htid3 := hsub4.subset htid
          rcases hsub3 tid htid3 with hmem | hge
          · left
            show tid ∈ st.tracks.map Prod.fst
            rw [← hids2]
            exact hmem
          · exact Or.inr hge

/-- C9: across any sequence of update calls from a well-formed tracker
state, the live ids stay pairwise distinct and below the id counter, the
counter never decreases, and every live id either was live at the start or
was drawn at or above the starting counter value — so an id evicted along
the way, being below the counter from then on, is never assigned again. -/
theorem C9_ids_unique_never_reused (st : TrackerState)
    (steps : List (List BBox × (ℚ × ℚ) × ℚ)) (st2 : TrackerState)
    (hwf : trackerWF st) (h : runUpdates st steps = some st2) :
    trackerWF st2 ∧ st.next_id ≤ st2.next_id ∧
      ∀ tid ∈ liveIds st2, tid ∈ liveIds st ∨ st.next_id ≤ tid := by
  induction steps generalizing st with
  | nil =>
    rw [runUpdates] at h
    cases h
    exact ⟨hwf, le_rfl, fun tid htid => Or.inl htid⟩
  | cons stp rest ih =>
    rw [runUpdates, List.foldlM_cons] at h
    rcases h1 : update st stp.1 stp.2.1 stp.2.2 with _ | st1 <;> rw [h1] at h
    · cases h
    · obtain ⟨hwf1, hmono1, hsub1⟩ := update_wf_step hwf h1
      obtain ⟨hwf2, hmono2, hsub2⟩ := ih st1 hwf1 (by simpa [runUpdates] using h)
      refine ⟨hwf2, le_trans hmono1 hmono2, ?_⟩
      intro tid htid
      rcases hsub2 tid htid with hmem | hge
      · rcases hsub1 tid hmem with hmem1 | hge1
        · exact Or.inl hmem1
        · exact Or.inr hge1
      · exact Or.inr (le_trans hmono1 hge)

/-- Witness for C9_ids_unique_never_reused: one update step on the fresh
tracker, spawning track id 0. -/
theorem C9_ids_unique_never_reused_witness :
    trackerWF (createTracker (initTracker 30) (0, 0, 4, 4) 0) ∧
    (initTracker 30).next_id ≤ (createTracker (initTracker 30) (0, 0, 4, 4) 0).next_id ∧
    ∀ tid ∈ liveIds (createTracker (initTracker 30) (0, 0, 4, 4) 0),
      tid ∈ liveIds (initTracker 30) ∨ (initTracker 30).next_id ≤ tid :=
  C9_ids_unique_never_reused (initTracker 30) [([(0, 0, 4, 4)], (0, 0), 0)]
    (createTracker (initTracker 30) (0, 0, 4, 4) 0)
    ⟨by simp [liveIds, initTracker], by simp [liveIds, initTracker]⟩ rfl
